import Mathlib

/-!
Verification of the Voice-Turn Orchestrator (src/App.tsx, the unnamed
App.tsx variant with the AI-response display, and
netlify/functions/getAiResponse.ts).

The React component is embedded as an explicit state record `AppState`
plus pure transition functions, one per handler in the source.  The
browser speech-synthesis engine is modelled as a queue of utterance
texts: `synth.speak` appends, `synth.cancel` empties, `synth.speaking`
is queue non-emptiness.  Asynchronous `getAiResponse` is split at its
single `await fetch` suspension point into a begin phase (guard checks,
dedupe memo update, loading flag) and a resolve phase (the continuation
handling the fetch outcome), and the whole function is their
composition; the fetch outcome is a parameter.  JavaScript string
truthiness (`!text`, `data.response`, `errorBody?.error`) is emptiness
of the string, or absence of the field, which `Option String` captures.
-/

/-- JavaScript `String.prototype.trim`: the string with leading and
trailing whitespace removed, computed on the character list so
concrete instances reduce in the kernel. -/
def jsTrim (s : String) : String :=
  ⟨((s.data.dropWhile Char.isWhitespace).reverse.dropWhile
      Char.isWhitespace).reverse⟩

/-- The browser speech-synthesis engine (`window.speechSynthesis`):
the queue of utterance texts, head currently being spoken. -/
structure SynthState where
  queue : List String
deriving DecidableEq, Repr

/-- `synth.speaking`: true while an utterance is queued or in progress. -/
def SynthState.speaking (s : SynthState) : Bool :=
  !s.queue.isEmpty

/-- `synth.cancel()`: removes all utterances from the queue. -/
def SynthState.cancel (_ : SynthState) : SynthState :=
  ⟨[]⟩

/-- `synth.speak(utterance)`: appends the utterance to the queue. -/
def SynthState.enqueue (s : SynthState) (text : String) : SynthState :=
  ⟨s.queue ++ [text]⟩

/-- The component state of `App`: the `useState` hooks, the live and
final transcripts owned by the speech-recognition hook, the
`lastProcessedTranscript` ref (the DedupeMemo), and the synthesis
engine. -/
structure AppState where
  textToSpeak : String
  isSynthesizing : Bool
  isAiResponding : Bool
  aiResponseText : String
  transcript : String
  finalTranscript : String
  lastProcessedTranscript : Option String
  synth : SynthState
deriving DecidableEq, Repr

/-- `speak(text)` from App.tsx: warns and returns when the text is empty
(JavaScript `!text`), otherwise cancels any in-progress output and
enqueues the new utterance.  The second component lists the utterances
handed to `synth.speak` by this call. -/
def speak (s : AppState) (text : String) : AppState × List String :=
  if text = "" then (s, [])
  else
    let s1 := if s.synth.speaking then { s with synth := s.synth.cancel } else s
    ({ s1 with synth := s1.synth.enqueue text }, [text])

/-- Outcome of `response.json()`: the parsed fields of interest
(`data.response`, `errorBody.error`), or a parse rejection with the
rejection's message. -/
inductive JsonParse where
  | parsed (responseField : Option String) (errorField : Option String)
  | failed (errMsg : String)
deriving DecidableEq, Repr

/-- Outcome of `await fetch(...)`: an HTTP response (status, status
text, body parse outcome) or a rejection of the fetch itself. -/
inductive FetchOutcome where
  | httpResponse (status : Nat) (statusText : String) (body : JsonParse)
  | networkFailure (message : String)
deriving DecidableEq, Repr

/-- The verbal error feedback built in the catch block of
`getAiResponse` for a caught `Error` with message `msg`. -/
def errorFeedback (msg : String) : String :=
  "Sorry, I encountered an error: " ++ msg

/-- The catch block plus the finally block of `getAiResponse`: clears
the displayed AI response, speaks the feedback for the caught error
message, and clears the loading flag. -/
def resolveCatch (s : AppState) (msg : String) : AppState × List String :=
  let s1 := { s with aiResponseText := "" }
  let (s2, sp) := speak s1 (errorFeedback msg)
  ({ s2 with isAiResponding := false }, sp)

/-- The continuation of `getAiResponse` after `await fetch` resolves:
classifies the outcome exactly as the source's `response.ok` test,
`data.response` check, and catch block do, ending with the finally
block. -/
def getAiResponseResolve (s : AppState) (outcome : FetchOutcome) :
    AppState × List String :=
  match outcome with
  | .networkFailure msg => resolveCatch s msg
  | .httpResponse status statusText body =>
      if 200 ≤ status ∧ status ≤ 299 then
        match body with
        | .parsed (some r) _ =>
            if r = "" then
              resolveCatch s
                "Received success status but no valid response field from function."
            else
              let s1 := { s with aiResponseText := r }
              let (s2, sp) := speak s1 r
              ({ s2 with isAiResponding := false }, sp)
        | .parsed none _ =>
            resolveCatch s
              "Received success status but no valid response field from function."
        | .failed m => resolveCatch s m
      else
        let detail :=
          match body with
          | .parsed _ (some e) => if e = "" then statusText else e
          | .parsed _ none => statusText
          | .failed _ => "Failed to parse error response from function."
        resolveCatch s
          ("Function Error (" ++ toString status ++ "): " ++ detail)

/-- The synchronous prefix of `getAiResponse` up to `await fetch`: the
empty-transcript guard, the duplicate check against
`lastProcessedTranscript`, marking the text processed and setting the
loading flag.  The boolean reports whether a backend request is
issued. -/
def getAiResponseBegin (s : AppState) (text : String) : AppState × Bool :=
  if text = "" ∨ jsTrim text = "" then (s, false)
  else if s.lastProcessedTranscript = some text then (s, false)
  else ({ s with lastProcessedTranscript := some text, isAiResponding := true }, true)

/-- Result of one invocation of `getAiResponse`: the final component
state, the texts handed to `synth.speak`, and the transcripts sent to
the backend. -/
structure TurnOutput where
  state : AppState
  spoken : List String
  requests : List String
deriving DecidableEq, Repr

/-- `getAiResponse(text)` as a whole, given the outcome of its single
fetch: the begin phase followed, when a request is issued, by the
resolve phase. -/
def getAiResponse (s : AppState) (text : String) (outcome : FetchOutcome) :
    TurnOutput :=
  let (s1, issued) := getAiResponseBegin s text
  if issued then
    let (s2, sp) := getAiResponseResolve s1 outcome
    ⟨s2, sp, [text]⟩
  else ⟨s1, [], []⟩

/-- The fixed notice spoken when the microphone is unavailable. -/
def micUnavailableMessage : String :=
  "Cannot start listening, microphone is not available."

/-- `handleStartListening`: clears the transcripts, the dedupe memo and
the displayed AI response, then either rejects with the spoken
microphone notice, or cancels in-progress synthesis and starts the
capture service.  The final boolean reports whether listening began. -/
def handleStartListening (s : AppState) (isMicrophoneAvailable : Bool) :
    AppState × List String × Bool :=
  let s1 := { s with transcript := "", finalTranscript := "",
                     lastProcessedTranscript := none, aiResponseText := "" }
  if !isMicrophoneAvailable then
    let (s2, sp) := speak s1 micUnavailableMessage
    (s2, sp, false)
  else
    let s2 := if s1.synth.speaking then { s1 with synth := s1.synth.cancel } else s1
    (s2, [], true)

/-- `handleReset`: clears the transcripts, the dedupe memo and the
displayed AI response, then speaks the confirmation phrase. -/
def handleReset (s : AppState) : AppState × List String :=
  let s1 := { s with transcript := "", finalTranscript := "",
                     lastProcessedTranscript := none, aiResponseText := "" }
  speak s1 "Transcript reset"

/-- Result of the Netlify function handler: HTTP status plus the
`response` and `error` fields of its JSON body. -/
structure HandlerResult where
  statusCode : Nat
  responseField : Option String
  errorField : Option String
deriving DecidableEq, Repr

/-- The backend handler of netlify/functions/getAiResponse.ts.  Inputs:
whether the API key is configured, the HTTP method, the parsed
`transcript` field of the request body (`none` when the body is missing,
unparseable or the field absent), and the outcome of the model call —
an error message when the call throws, otherwise the list of choices,
each carrying its optional `message.content`. -/
def handler (apiKeyConfigured : Bool) (httpMethod : String)
    (bodyTranscript : Option String)
    (completionOutcome : Except String (List (Option String))) : HandlerResult :=
  if !apiKeyConfigured then
    ⟨500, none, some "OpenAI API key not configured."⟩
  else if httpMethod ≠ "POST" then
    ⟨405, none, some "Please use the POST method."⟩
  else
    match bodyTranscript with
    | none =>
        ⟨400, none,
         some "Invalid request body. Expecting JSON with a 'transcript' field."⟩
    | some t =>
        if t = "" ∨ jsTrim t = "" then
          ⟨400, none,
           some "Invalid request body. Expecting JSON with a 'transcript' field."⟩
        else
          match completionOutcome with
          | .error e => ⟨500, none, some e⟩
          | .ok choices =>
              match (choices.head?.bind id).map jsTrim with
              | some r =>
                  if r = "" then
                    ⟨500, none, some "Received an empty response from OpenAI."⟩
                  else ⟨200, some r, none⟩
              | none =>
                  ⟨500, none, some "Received an empty response from OpenAI."⟩

/-- A quiescent component state: nothing typed, nothing speaking, no
pending turn, empty transcripts, empty dedupe memo, idle synthesis. -/
def initState : AppState :=
  ⟨"", false, false, "", "", "", none, ⟨[]⟩⟩

/-- The fetch outcome of claim C4: HTTP 500 whose JSON error body
carries the message `model unavailable`. -/
def serverErrorOutcome : FetchOutcome :=
  .httpResponse 500 "Internal Server Error"
    (.parsed none (some "model unavailable"))

/-- A state holding a dedupe memo and a displayed reply, as left behind
by a completed earlier turn. -/
def afterTurnState : AppState :=
  { initState with lastProcessedTranscript := some "hello",
                   aiResponseText := "prior reply" }

/-! ### Helper lemmas -/

/-- With non-empty text, `speak` always leaves exactly the new utterance
in the synthesis queue (cancelling first when something was speaking)
and reports it as started. -/
theorem speak_eq (s : AppState) (t : String) (h : t ≠ "") :
    speak s t = ({ s with synth := ⟨[t]⟩ }, [t]) := by
  unfold speak
  rw [if_neg h]
  rcases hq : s.synth.queue with _ | ⟨a, l⟩ <;>
    simp [SynthState.speaking, SynthState.cancel, SynthState.enqueue, hq]

/-- The verbal error feedback is never the empty string. -/
theorem errorFeedback_ne_empty (msg : String) : errorFeedback msg ≠ "" := by
  intro h
  have h2 := congrArg String.data h
  simp [errorFeedback, String.data_append] at h2

/-- Closed form of the catch-and-finally path of `getAiResponse`. -/
theorem resolveCatch_eq (s : AppState) (msg : String) :
    resolveCatch s msg =
      ({ s with aiResponseText := "", isAiResponding := false,
                synth := ⟨[errorFeedback msg]⟩ }, [errorFeedback msg]) := by
  unfold resolveCatch
  simp [speak_eq _ _ (errorFeedback_ne_empty msg)]

/-- Whatever the fetch outcome, the resolve phase only rewrites the
displayed reply, the loading flag and the synthesis queue — it speaks
exactly one non-empty utterance and leaves every other field (in
particular `lastProcessedTranscript`) as it found it. -/
theorem resolve_shape (s : AppState) (o : FetchOutcome) :
    ∃ t a, t ≠ "" ∧
      getAiResponseResolve s o =
        ({ s with aiResponseText := a, isAiResponding := false,
                  synth := ⟨[t]⟩ }, [t]) := by
  rcases o with ⟨status, st, (⟨rf, ef⟩ | m)⟩ | msg
  · by_cases hok : 200 ≤ status ∧ status ≤ 299
    · rcases rf with _ | r
      · refine ⟨errorFeedback
          "Received success status but no valid response field from function.",
          "", errorFeedback_ne_empty _, ?_⟩
        simp [getAiResponseResolve, hok, resolveCatch_eq]
      · by_cases hr : r = ""
        · refine ⟨errorFeedback
            "Received success status but no valid response field from function.",
            "", errorFeedback_ne_empty _, ?_⟩
          simp [getAiResponseResolve, hok, hr, resolveCatch_eq]
        · refine ⟨r, r, hr, ?_⟩
          simp [getAiResponseResolve, hok, hr, speak_eq _ _ hr]
    · rcases ef with _ | e
      · refine ⟨errorFeedback ("Function Error (" ++ toString status ++ "): " ++ st),
          "", errorFeedback_ne_empty _, ?_⟩
        simp [getAiResponseResolve, hok, resolveCatch_eq]
      · by_cases he : e = ""
        · refine ⟨errorFeedback ("Function Error (" ++ toString status ++ "): " ++ st),
            "", errorFeedback_ne_empty _, ?_⟩
          simp [getAiResponseResolve, hok, he, resolveCatch_eq]
        · refine ⟨errorFeedback ("Function Error (" ++ toString status ++ "): " ++ e),
            "", errorFeedback_ne_empty _, ?_⟩
          simp [getAiResponseResolve, hok, he, resolveCatch_eq]
  · by_cases hok : 200 ≤ status ∧ status ≤ 299
    · refine ⟨errorFeedback m, "", errorFeedback_ne_empty _, ?_⟩
      simp [getAiResponseResolve, hok, resolveCatch_eq]
    · refine ⟨errorFeedback ("Function Error (" ++ toString status ++ "): "
          ++ "Failed to parse error response from function."),
        "", errorFeedback_ne_empty _, ?_⟩
      simp [getAiResponseResolve, hok, resolveCatch_eq]
  · refine ⟨errorFeedback msg, "", errorFeedback_ne_empty _, ?_⟩
    simp [getAiResponseResolve, resolveCatch_eq]

/-- The begin phase accepts a non-duplicate, non-blank transcript:
it records it in the memo, raises the loading flag and issues the
request. -/
theorem begin_accept (s : AppState) (t : String)
    (h1 : t ≠ "") (h2 : jsTrim t ≠ "") (hm : s.lastProcessedTranscript ≠ some t) :
    getAiResponseBegin s t =
      ({ s with lastProcessedTranscript := some t, isAiResponding := true },
       true) := by
  unfold getAiResponseBegin
  rw [if_neg (by simp [h1, h2]), if_neg hm]

/-- The begin phase drops a transcript equal to the dedupe memo without
touching the state or issuing a request. -/
theorem begin_dup (s : AppState) (t : String)
    (hm : s.lastProcessedTranscript = some t) :
    getAiResponseBegin s t = (s, false) := by
  unfold getAiResponseBegin
  by_cases hb : t = "" ∨ jsTrim t = ""
  · rw [if_pos hb]
  · rw [if_neg hb, if_pos hm]

/-- A blank transcript never reaches the dedupe check or the network. -/
theorem begin_blank (s : AppState) (t : String) (h : t = "" ∨ jsTrim t = "") :
    getAiResponseBegin s t = (s, false) := by
  unfold getAiResponseBegin
  rw [if_pos h]

/-- `jsTrim` of the empty string is empty. -/
theorem jsTrim_empty : jsTrim "" = "" := rfl

/-- Closed form of a `handleReset` call. -/
theorem handleReset_eq (s : AppState) :
    handleReset s =
      ({ s with transcript := "", finalTranscript := "",
                lastProcessedTranscript := none, aiResponseText := "",
                synth := ⟨["Transcript reset"]⟩ },
       ["Transcript reset"]) := by
  unfold handleReset
  simp [speak_eq _ _ (show ("Transcript reset" : String) ≠ "" by decide)]

/-- Closed form of `handleStartListening` when the microphone is
unavailable: clears, speaks the notice, refuses to start. -/
theorem handleStartListening_noMic (s : AppState) :
    handleStartListening s false =
      ({ s with transcript := "", finalTranscript := "",
                lastProcessedTranscript := none, aiResponseText := "",
                synth := ⟨[micUnavailableMessage]⟩ },
       [micUnavailableMessage], false) := by
  unfold handleStartListening
  simp [speak_eq _ _ (show micUnavailableMessage ≠ "" by decide)]

/-- `handleStartListening` with the microphone available always leaves
the synthesis queue empty: any in-progress output is cancelled. -/
theorem handleStartListening_cancels (s : AppState) :
    (handleStartListening s true).1.synth.queue = [] ∧
    (handleStartListening s true).2.2 = true := by
  unfold handleStartListening
  rcases hq : s.synth.queue with _ | ⟨a, l⟩ <;>
    simp [SynthState.speaking, SynthState.cancel, hq]

/-- An accepted transcript (non-blank, different from the memo) issues
exactly one backend request carrying it, and the memo afterwards holds
its raw text. -/
theorem getAiResponse_accept (s : AppState) (t : String) (o : FetchOutcome)
    (h1 : t ≠ "") (ht : jsTrim t ≠ "")
    (hm : s.lastProcessedTranscript ≠ some t) :
    (getAiResponse s t o).requests = [t] ∧
    (getAiResponse s t o).state.lastProcessedTranscript = some t := by
  obtain ⟨u, a, hu, hres⟩ := resolve_shape
    { s with lastProcessedTranscript := some t, isAiResponding := true } o
  simp [getAiResponse, begin_accept s t h1 ht hm, hres]

/-- A transcript equal to the dedupe memo is dropped: no request, no
spoken output, no state change. -/
theorem getAiResponse_dup (s : AppState) (t : String) (o : FetchOutcome)
    (hm : s.lastProcessedTranscript = some t) :
    getAiResponse s t o = ⟨s, [], []⟩ := by
  simp [getAiResponse, begin_dup s t hm]

/-- A non-blank transcript that is blank after trimming, or an empty
one, is dropped before the dedupe check. -/
theorem getAiResponse_blank (s : AppState) (t : String)
    (h : t = "" ∨ jsTrim t = "") (o : FetchOutcome) :
    getAiResponse s t o = ⟨s, [], []⟩ := by
  simp [getAiResponse, begin_blank s t h]

/-! ### Claims -/

/-- C1: for two consecutive finalized utterances with identical text and
no intervening `startListening`/`reset`, the first accepted text is
stored in the dedupe memo and issues the single backend request; the
second identical event is dropped with no request, no spoken output and
no state change. -/
theorem c1_duplicate_utterance_single_request (s : AppState) (t : String)
    (o1 o2 : FetchOutcome) (ht : jsTrim t ≠ "")
    (hm : s.lastProcessedTranscript ≠ some t) :
    (getAiResponse s t o1).requests = [t] ∧
    (getAiResponse s t o1).state.lastProcessedTranscript = some t ∧
    getAiResponse (getAiResponse s t o1).state t o2 =
      ⟨(getAiResponse s t o1).state, [], []⟩ := by
  have h1 : t ≠ "" := fun h => ht (by rw [h]; exact jsTrim_empty)
  obtain ⟨hr1, hmem⟩ := getAiResponse_accept s t o1 h1 ht hm
  exact ⟨hr1, hmem, getAiResponse_dup _ t o2 hmem⟩

/-- C1 witness: a concrete duplicate pair on the quiescent state. -/
theorem c1_witness :
    (getAiResponse initState "hello" (.networkFailure "down")).requests
      = ["hello"] ∧
    (getAiResponse initState "hello"
        (.networkFailure "down")).state.lastProcessedTranscript
      = some "hello" ∧
    getAiResponse (getAiResponse initState "hello"
        (.networkFailure "down")).state "hello" (.networkFailure "again") =
      ⟨(getAiResponse initState "hello" (.networkFailure "down")).state,
       [], []⟩ :=
  c1_duplicate_utterance_single_request initState "hello"
    (.networkFailure "down") (.networkFailure "again") (by decide) (by decide)

/-- C2: `speak` with non-empty text while the synthesis engine is
speaking hard-cancels the in-progress output before starting the new
one, so afterwards exactly one output utterance — the newest — is
active. -/
theorem c2_speak_cancels_in_progress (s : AppState) (t : String)
    (hs : s.synth.speaking = true) (ht : t ≠ "") :
    (speak s t).1.synth.queue = [t] ∧ (speak s t).2 = [t] := by
  rw [speak_eq s t ht]
  exact ⟨rfl, rfl⟩

/-- C2 witness: speaking `new` over an active `old` utterance. -/
theorem c2_witness :
    ({ initState with synth := ⟨["old"]⟩ } : AppState).synth.speaking
      = true ∧
    (speak { initState with synth := ⟨["old"]⟩ } "new").1.synth.queue
      = ["new"] ∧
    (speak { initState with synth := ⟨["old"]⟩ } "new").2 = ["new"] := by
  refine ⟨by decide, ?_, ?_⟩
  · exact (c2_speak_cancels_in_progress
      { initState with synth := ⟨["old"]⟩ } "new" (by decide) (by decide)).1
  · exact (c2_speak_cancels_in_progress
      { initState with synth := ⟨["old"]⟩ } "new" (by decide) (by decide)).2

/-- C3: the turn sending `what time is it` and answered HTTP 200 with
response `It is 3:45 PM.` ends with the awaiting-reply flag cleared,
the last reply equal to that text, exactly one spoken output with that
text, and exactly one backend request. -/
theorem c3_successful_turn :
    (getAiResponse initState "what time is it"
        (.httpResponse 200 "OK"
          (.parsed (some "It is 3:45 PM.") none))).state.isAiResponding
      = false ∧
    (getAiResponse initState "what time is it"
        (.httpResponse 200 "OK"
          (.parsed (some "It is 3:45 PM.") none))).state.aiResponseText
      = "It is 3:45 PM." ∧
    (getAiResponse initState "what time is it"
        (.httpResponse 200 "OK"
          (.parsed (some "It is 3:45 PM.") none))).spoken
      = ["It is 3:45 PM."] ∧
    (getAiResponse initState "what time is it"
        (.httpResponse 200 "OK"
          (.parsed (some "It is 3:45 PM.") none))).requests
      = ["what time is it"] := by
  decide

/-- C4: a backend answer of HTTP 500 with error body `model unavailable`
leads to exactly one request, one spoken fallback containing
`model unavailable`, a cleared awaiting-reply flag, and a dedupe memo
still holding the original utterance. -/
theorem c4_server_error_spoken_fallback (s : AppState) (t : String)
    (ht : jsTrim t ≠ "") (hm : s.lastProcessedTranscript ≠ some t) :
    (getAiResponse s t serverErrorOutcome).requests = [t] ∧
    (getAiResponse s t serverErrorOutcome).state.isAiResponding = false ∧
    (getAiResponse s t serverErrorOutcome).state.lastProcessedTranscript
      = some t ∧
    ∃ pre post, (getAiResponse s t serverErrorOutcome).spoken
      = [pre ++ "model unavailable" ++ post] := by
  have h1 : t ≠ "" := fun h => ht (by rw [h]; exact jsTrim_empty)
  have hb := begin_accept s t h1 ht hm
  refine ⟨?_, ?_, ?_,
    ⟨"Sorry, I encountered an error: Function Error (500): ", "", ?_⟩⟩ <;>
    simp [getAiResponse, hb, serverErrorOutcome, getAiResponseResolve,
          resolveCatch_eq, errorFeedback] <;>
    decide

/-- C4 witness: the concrete 500 turn from the quiescent state. -/
theorem c4_witness :
    (getAiResponse initState "hi" serverErrorOutcome).requests = ["hi"] ∧
    (getAiResponse initState "hi" serverErrorOutcome).state.isAiResponding
      = false ∧
    (getAiResponse initState "hi"
        serverErrorOutcome).state.lastProcessedTranscript = some "hi" ∧
    ∃ pre post, (getAiResponse initState "hi" serverErrorOutcome).spoken
      = [pre ++ "model unavailable" ++ post] :=
  c4_server_error_spoken_fallback initState "hi" (by decide) (by decide)

/-- C5 counterexample: contrary to the claim, `speak` with a
whitespace-only text is not a no-op — the guard only rejects the empty
string, so a single space is handed to the synthesis engine and the
state changes. -/
theorem c5_counterexample :
    (speak initState " ").2 = [" "] ∧ (speak initState " ").1 ≠ initState := by
  decide

/-- C5 amended: `speak` with empty text is a no-op apart from the
logged warning (no output started, state unchanged, no error); any
non-empty text, whitespace-only included, starts an output
utterance. -/
theorem c5_amended_empty_only_noop (s : AppState) (t : String) :
    speak s "" = (s, []) ∧ (t ≠ "" → (speak s t).2 = [t]) := by
  constructor
  · simp [speak]
  · intro h
    rw [speak_eq s t h]

/-- C5 witness: the non-empty branch applied at a concrete text. -/
theorem c5_witness : (speak initState "x").2 = ["x"] :=
  (c5_amended_empty_only_noop initState "x").2 (by decide)

/-- C6 counterexample: contrary to the claim, the rejected
`startListening` does modify component state — starting from a state
whose dedupe memo holds `hello` and whose displayed reply is non-empty,
the mic-unavailable call clears both even though listening never
begins. -/
theorem c6_counterexample :
    afterTurnState.lastProcessedTranscript = some "hello" ∧
    afterTurnState.aiResponseText = "prior reply" ∧
    (handleStartListening afterTurnState false).2.2 = false ∧
    (handleStartListening afterTurnState false).1.lastProcessedTranscript
      = none ∧
    (handleStartListening afterTurnState false).1.aiResponseText = "" := by
  decide

/-- C6 amended: when the capture service reports the microphone
unavailable, `startListening` is rejected — the fixed fallback notice
is spoken and listening does not begin — but the transcript, the dedupe
memo and the displayed reply are cleared first, because the clearing
precedes the microphone check. -/
theorem c6_amended_reject_after_clearing (s : AppState) :
    handleStartListening s false =
      ({ s with transcript := "", finalTranscript := "",
                lastProcessedTranscript := none, aiResponseText := "",
                synth := ⟨[micUnavailableMessage]⟩ },
       [micUnavailableMessage], false) :=
  handleStartListening_noMic s

/-- C7: starting a new listening session after a request was issued
cancels any active speech output, yet the in-flight request is not
cancelled — when it resolves, the resolve phase still hands exactly one
utterance to the output controller, and a late success reply is spoken
verbatim. -/
theorem c7_late_reply_still_spoken (s : AppState) (t : String)
    (o : FetchOutcome) (ht : jsTrim t ≠ "")
    (hm : s.lastProcessedTranscript ≠ some t) :
    (getAiResponseBegin s t).2 = true ∧
    (handleStartListening (getAiResponseBegin s t).1 true).1.synth.queue
      = [] ∧
    (getAiResponseResolve
        (handleStartListening (getAiResponseBegin s t).1 true).1 o).2.length
      = 1 ∧
    (∀ r st ef, r ≠ "" →
      (getAiResponseResolve
          (handleStartListening (getAiResponseBegin s t).1 true).1
          (.httpResponse 200 st (.parsed (some r) ef))).2 = [r]) := by
  have h1 : t ≠ "" := fun h => ht (by rw [h]; exact jsTrim_empty)
  have hb := begin_accept s t h1 ht hm
  refine ⟨by rw [hb], (handleStartListening_cancels _).1, ?_, ?_⟩
  · obtain ⟨u, a, hu, hres⟩ := resolve_shape
      (handleStartListening (getAiResponseBegin s t).1 true).1 o
    rw [hres]
    rfl
  · intro r st ef hr
    simp [getAiResponseResolve, hr, speak_eq _ _ hr]

/-- C7 witness: a late 200 reply after a new session has started. -/
theorem c7_witness :
    (getAiResponseResolve
        (handleStartListening (getAiResponseBegin initState "hello").1 true).1
        (.httpResponse 200 "OK" (.parsed (some "late reply") none))).2
      = ["late reply"] :=
  (c7_late_reply_still_spoken initState "hello" (.networkFailure "boom")
      (by decide) (by decide)).2.2.2 "late reply" "OK" none (by decide)

/-- C8: `handleReset` in any state clears the dedupe memo and the
last-reply state, and it is idempotent — the component state after two
consecutive resets equals the state after one. -/
theorem c8_reset_clears_and_idempotent (s : AppState) :
    (handleReset s).1.lastProcessedTranscript = none ∧
    (handleReset s).1.aiResponseText = "" ∧
    handleReset (handleReset s).1 = handleReset s := by
  simp [handleReset_eq]

/-- C9: with the key configured, a POST and a valid transcript, the
backend handler maps an absent or empty (after trimming) first-choice
completion to HTTP 500 with an error body, never a 200 with an empty
reply; a non-empty completion yields HTTP 200 whose body carries the
trimmed text. -/
theorem c9_backend_empty_completion (t : String)
    (choices : List (Option String)) (ht : ¬(t = "" ∨ jsTrim t = "")) :
    (((choices.head?.bind id).map jsTrim = none ∨
        (choices.head?.bind id).map jsTrim = some "") →
      handler true "POST" (some t) (.ok choices) =
        ⟨500, none, some "Received an empty response from OpenAI."⟩) ∧
    (∀ r, (choices.head?.bind id).map jsTrim = some r → r ≠ "" →
      handler true "POST" (some t) (.ok choices) = ⟨200, some r, none⟩) := by
  constructor
  · intro hc
    rcases h0 : choices.head? with _ | oc
    · simp [handler, ht, h0]
    · rcases oc with _ | c
      · simp [handler, ht, h0]
      · have hc2 : jsTrim c = "" := by
          rw [h0] at hc
          rcases hc with hc | hc
          · simp at hc
          · simpa using hc
        simp [handler, ht, h0, hc2]
  · intro r hr hne
    rcases h0 : choices.head? with _ | oc
    · rw [h0] at hr
      simp at hr
    · rcases oc with _ | c
      · rw [h0] at hr
        simp at hr
      · rw [h0] at hr
        have hcr : jsTrim c = r := by simpa using hr
        simp [handler, ht, h0, hcr, hne]

/-- C9 witness: a whitespace-only completion is a 500 error, a real
one is relayed trimmed with status 200. -/
theorem c9_witness :
    handler true "POST" (some "hi") (.ok [some "   "]) =
      ⟨500, none, some "Received an empty response from OpenAI."⟩ ∧
    handler true "POST" (some "hi") (.ok [some " ok "]) =
      ⟨200, some "ok", none⟩ :=
  ⟨(c9_backend_empty_completion "hi" [some "   "] (by decide)).1
      (Or.inr (by decide)),
   (c9_backend_empty_completion "hi" [some " ok "] (by decide)).2
      "ok" (by decide) (by decide)⟩

/-- C10: the duplicate test is exact equality on the raw finalized
text — two consecutive utterances that differ only in surrounding
whitespace or letter case (so their trimmed, lower-cased forms agree
but the raw strings differ) are both accepted and each issues its own
backend request. -/
theorem c10_dedupe_exact_string_equality (s : AppState) (t1 t2 : String)
    (o1 o2 : FetchOutcome) (hne : t1 ≠ t2)
    (hcase : (jsTrim t1).data.map Char.toLower
      = (jsTrim t2).data.map Char.toLower)
    (ht1 : jsTrim t1 ≠ "") (ht2 : jsTrim t2 ≠ "")
    (hm : s.lastProcessedTranscript ≠ some t1) :
    (getAiResponse s t1 o1).requests = [t1] ∧
    (getAiResponse (getAiResponse s t1 o1).state t2 o2).requests = [t2] := by
  have h1 : t1 ≠ "" := fun h => ht1 (by rw [h]; exact jsTrim_empty)
  have h2 : t2 ≠ "" := fun h => ht2 (by rw [h]; exact jsTrim_empty)
  obtain ⟨hr1, hmem⟩ := getAiResponse_accept s t1 o1 h1 ht1 hm
  refine ⟨hr1, ?_⟩
  have hm2 : (getAiResponse s t1 o1).state.lastProcessedTranscript
      ≠ some t2 := by
    rw [hmem]
    exact fun hcon => hne (by injection hcon)
  exact (getAiResponse_accept _ t2 o2 h2 ht2 hm2).1

/-- C10 witness: `hello` then `Hello ` — same letters up to case and
surrounding whitespace, different raw strings — both hit the
backend. -/
theorem c10_witness :
    (getAiResponse initState "hello" (.networkFailure "down")).requests
      = ["hello"] ∧
    (getAiResponse (getAiResponse initState "hello"
        (.networkFailure "down")).state "Hello " (.networkFailure "down")).requests
      = ["Hello "] :=
  c10_dedupe_exact_string_equality initState "hello" "Hello "
    (.networkFailure "down") (.networkFailure "down")
    (by decide) (by decide) (by decide) (by decide) (by decide)
